import Mathlib

/-!
Verification of the batch image-generation driver `scripts/stable_txt2img.py`.

The development shallowly embeds the driver's native logic: the prompt-directive
parser, the CLI seed resolution, the `seed_all` seeding routine, the
chunking of prompt-file lines, the bounded safety-retry generation loop, and
the output-file naming/counting.  External collaborators (the diffusion
sampler, the VAE decoder, the safety classifier, the process RNG) are modelled
as oracles passed in as parameters.  Machine integers are modelled as `Nat`/`Int`
(no overflow is relevant to the properties below), fallible Python calls
(`int(...)` on a non-numeric string) return `Option`/error results.
-/

namespace StableTxt2Img

/-! ## Python primitives

`pyInt` models Python's `int(str)`: surrounding whitespace is stripped, an
optional sign is consumed, and the remainder must be a non-empty digit string
in which single underscores may separate digits (PEP 515).  A string that does
not have this shape makes `int(...)` raise `ValueError`, modelled as `none`. -/

/-- Parse a digit string that may contain single underscores between digits.
`lastWasDigit` tracks whether the previous character was a digit (so a leading
underscore, a trailing underscore, or a double underscore is rejected). -/
def parseDigitsU : List Char → ℕ → Bool → Option ℕ
  | [], acc, lastWasDigit => if lastWasDigit then some acc else none
  | c :: cs, acc, lastWasDigit =>
    if c.isDigit then parseDigitsU cs (acc * 10 + (c.toNat - 48)) true
    else if c = '_' && lastWasDigit then parseDigitsU cs acc false
    else none

/-- Strip leading and trailing whitespace (Python `str.strip()`, which
`int(...)` applies to its argument). -/
def pyStrip (cs : List Char) : List Char :=
  ((cs.dropWhile Char.isWhitespace).reverse.dropWhile Char.isWhitespace).reverse

/-- Python `int(s)` on a string: `some n` on success, `none` when the call
would raise `ValueError`. -/
def pyInt (s : String) : Option ℤ :=
  match pyStrip s.data with
  | '+' :: cs => (parseDigitsU cs 0 false).map Int.ofNat
  | '-' :: cs => (parseDigitsU cs 0 false).map (fun n => -(n : ℤ))
  | cs => (parseDigitsU cs 0 false).map Int.ofNat

/-- Split worker for `pySplit`, structurally recursive on `fuel` so that it
reduces in the kernel.  `acc` holds the current field reversed. -/
def pySplitAux (sep : List Char) : ℕ → List Char → List Char → List (List Char)
  | 0, cs, acc => [acc.reverse ++ cs]
  | fuel + 1, cs, acc =>
    match cs with
    | [] => [acc.reverse]
    | c :: cs' =>
      if sep.isPrefixOf (c :: cs') then
        acc.reverse :: pySplitAux sep fuel ((c :: cs').drop sep.length) []
      else
        pySplitAux sep fuel cs' (c :: acc)

/-- Python `s.split(sep)` for a non-empty separator: split on each
non-overlapping occurrence of `sep`, left to right; `"".split(sep) = [""]`. -/
def pySplit (s sep : String) : List String :=
  (pySplitAux sep.data (s.data.length + 1) s.data []).map String.mk

/-! ## Data model -/

/-- Process-wide configuration resolved from the CLI arguments; only the
fields the verified logic consumes are kept, with the argparse defaults. -/
structure RunConfig where
  scale : ℚ := 15 / 2     -- --scale, default 7.5
  ddim_steps : ℤ := 50    -- --ddim_steps, default 50
  n_iter : ℕ := 2         -- --n_iter, default 2
  n_samples : ℕ := 3      -- --n_samples (batch size), default 3
  seed : ℤ := -1          -- --seed, default -1
  deriving DecidableEq, Repr

/-- One structured generation request built from a prompt line.
`promptSeed = none` is raw-prompt mode ("random seed"); in 5-field mode the
seed field is kept as the raw string (the source converts it with
`int(promptSeed)` only at seeding time). -/
structure GenerationRequest where
  promptId : String
  promptSeed : Option String
  promptScale : ℚ
  promptDdimSteps : ℤ
  promptString : String
  deriving DecidableEq, Repr

/-- Outcome of processing one prompt line: skipped (empty/comment), a parsed
request, or an uncaught `ValueError` from `int(...)` on the named field,
which aborts the whole run. -/
inductive LineResult where
  | skip : LineResult
  | request : GenerationRequest → LineResult
  | valueError : String → LineResult
  deriving DecidableEq, Repr

/-! ## PromptDirectiveParser -/

/-- Mirrors `len(promptLine) == 0 or promptLine[0] == "#"`. -/
def isSkippedLine (line : String) : Bool :=
  match line.data with
  | [] => true
  | c :: _ => c == '#'

/-- Mirrors the literal `promptSplit[i] is None` tests in the source: the
elements of `str.split` are strings, never Python `None`, so the test is
always false. -/
def pyIsNone (_ : String) : Bool := false

/-- The 5-field branch of the parser (`promptSplit` has at least 5 fields):
`promptScale = opt.scale` when field 2 is empty, else `int(field2)`;
`promptDdimSteps = opt.ddim_steps` when field 3 is empty (guarded, as in the
source, by re-testing `promptSplit[2] is None` first), else `int(field3)`;
an `int(...)` failure raises (`.valueError`), aborting the run.  The scale
conversion is evaluated first, as in the source. -/
def parseFields (opt : RunConfig) (promptId promptSeed f2 f3 f4 : String) : LineResult :=
  let promptScaleR : Except String ℚ :=
    if pyIsNone f2 || f2.length == 0 then .ok opt.scale
    else match pyInt f2 with
      | some n => .ok (n : ℚ)
      | none => .error f2
  match promptScaleR with
  | .error f => .valueError f
  | .ok promptScale =>
    let promptDdimStepsR : Except String ℤ :=
      if pyIsNone f2 || f3.length == 0 then .ok opt.ddim_steps
      else match pyInt f3 with
        | some n => .ok n
        | none => .error f3
    match promptDdimStepsR with
    | .error f => .valueError f
    | .ok promptDdimSteps =>
      .request { promptId := promptId, promptSeed := some promptSeed,
                 promptScale := promptScale, promptDdimSteps := promptDdimSteps,
                 promptString := f4 }

/-- The per-line parsing logic of `main` (the `promptSplit` block): empty
and comment lines are skipped; the line is split on the literal `"######"`;
with fewer than 5 fields it falls back to raw-prompt mode with CLI defaults;
with 5 or more fields it goes to the 5-field branch. -/
def parseDirectiveLine (opt : RunConfig) (promptLine : String) : LineResult :=
  if isSkippedLine promptLine then .skip else
  let promptSplit := pySplit promptLine "######"
  if promptSplit.length < 5 then
    .request { promptId := "000", promptSeed := none, promptScale := opt.scale,
               promptDdimSteps := opt.ddim_steps, promptString := promptLine }
  else
    parseFields opt (promptSplit.getD 0 "") (promptSplit.getD 1 "")
      (promptSplit.getD 2 "") (promptSplit.getD 3 "") (promptSplit.getD 4 "")

example : pySplit "001######42############20######a red fox" "######" =
    ["001", "42", "", "20", "a red fox"] := by decide

example : parseDirectiveLine {} "001######42############20######a red fox" =
    .request ⟨"001", some "42", 15 / 2, 20, "a red fox"⟩ := rfl

example : parseDirectiveLine { ddim_steps := 50 } "a blue heron" =
    .request ⟨"000", none, 15 / 2, 50, "a blue heron"⟩ := rfl

/-! ## BatchDriver chunking

`chunk(it, size)` yields consecutive tuples of `size` elements (the final one
shorter); with `size = 0`, `islice(it, 0)` is immediately the empty-tuple
sentinel, so the result is empty. -/

/-- Worker for `chunk`, structurally recursive on `fuel` (one unit per
yielded tuple; `fuel = length + 1` always suffices since every step consumes
at least one element). -/
def chunkAux (size : ℕ) : ℕ → List α → List (List α)
  | 0, _ => []
  | _ + 1, [] => []
  | fuel + 1, a :: l =>
    if size = 0 then []
    else (a :: l).take size :: chunkAux size fuel ((a :: l).drop size)

/-- The `chunk` helper of the script, on lists. -/
def chunk (size : ℕ) (l : List α) : List (List α) :=
  chunkAux size (l.length + 1) l

/-- The prompt line processed for each batch: the driver runs
`promptLine = prompts[0]` on every chunk, so only each chunk's first line is
ever parsed. -/
def batchPromptLines (batch_size : ℕ) (lines : List String) : List String :=
  (chunk batch_size lines).map (fun prompts => prompts.headD "")

/-! ## SeedController -/

/-- `np.iinfo(np.uint32).min`. -/
def min_seed_value : ℕ := 0

/-- `np.iinfo(np.uint32).max = 2^32 - 1`. -/
def max_seed_value : ℕ := 2 ^ 32 - 1

/-- The global random state mutated by `seed_all`: one field per seeded
source, plus the `PL_GLOBAL_SEED` environment variable that
`seed_everything` sets (read back later to name output files) and the two
cuDNN flags. -/
structure SeedState where
  plGlobalSeed : Option ℕ       -- os.environ['PL_GLOBAL_SEED'], via seed_everything
  pythonRandomSeed : Option ℕ   -- random.seed
  pythonHashSeed : Option ℕ     -- os.environ['PYTHONHASHSEED']
  numpyRandomSeed : Option ℕ    -- np.random.seed
  torchManualSeed : Option ℕ    -- torch.manual_seed
  torchCudaSeed : Option ℕ      -- torch.cuda.manual_seed
  cudnnDeterministic : Bool
  cudnnBenchmark : Bool
  deriving DecidableEq, Repr

/-- `seed_all(seed=None)`: when `seed` is `None` a fresh value is drawn with
`random.randint(min_seed_value, max_seed_value)` (modelled by the `randint`
oracle, applied to exactly those inclusive bounds); the resulting single
value then seeds every source.  Returns the new global state. -/
def seed_all (randint : ℕ → ℕ → ℕ) (seed : Option ℕ) : SeedState :=
  let s : ℕ := match seed with
    | none => randint min_seed_value max_seed_value
    | some v => v
  { plGlobalSeed := some s          -- seed_everything(seed, workers=True)
    pythonRandomSeed := some s      -- random.seed(seed)
    pythonHashSeed := some s        -- os.environ['PYTHONHASHSEED'] = str(seed)
    numpyRandomSeed := some s       -- np.random.seed(seed)
    torchManualSeed := some s       -- torch.manual_seed(seed)
    torchCudaSeed := some s         -- torch.cuda.manual_seed(seed)
    cudnnDeterministic := true
    cudnnBenchmark := false }

/-- The CLI seed dispatch of `main`:
`if opt.seed == -1 or opt.seed == 0: seed_everything() else:
seed_everything(opt.seed)`.  `none` means `seed_everything()` with no
argument, i.e. a random seed. -/
def resolveCliSeed (seed : ℤ) : Option ℤ :=
  if seed = -1 ∨ seed = 0 then none else some seed

/-! ## OutputWriter -/

/-- Python `f"{n:0w}"`-style zero padding (pad with zeros on the left to at
least `width` characters). -/
def zeroPad (width n : ℕ) : String :=
  let s := toString n
  String.mk (List.replicate (width - s.length) '0') ++ s

/-- `sample_path = os.path.join(outpath, "samples")`. -/
def sample_path (outpath : String) : String := outpath ++ "/samples"

/-- `base_count = len(os.listdir(sample_path))`. -/
def initialBaseCount (samplesDirListing : List String) : ℕ :=
  samplesDirListing.length

/-- The path the per-image save uses:
`os.path.join(outpath, f"{promptId}_{used_seed}_{base_count:05}.png")` —
note it joins `outpath`, not `sample_path`. -/
def imageFilePath (outpath promptId used_seed : String) (base_count : ℕ) : String :=
  outpath ++ "/" ++ promptId ++ "_" ++ used_seed ++ "_" ++ zeroPad 5 base_count ++ ".png"

/-- `f'grid-{grid_count:04}.png'` joined to `outpath`. -/
def gridFilePath (outpath : String) (grid_count : ℕ) : String :=
  outpath ++ "/grid-" ++ zeroPad 4 grid_count ++ ".png"

/-- The per-batch save loop: `for x_sample in x_checked_image_torch:` saves
one file at the current `base_count` and then increments it.  Returns the
paths written (in order) and the final counter. -/
def writeSamplesLoop (outpath promptId used_seed : String) :
    ℕ → ℕ → List String × ℕ
  | base_count, 0 => ([], base_count)
  | base_count, k + 1 =>
    (imageFilePath outpath promptId used_seed base_count ::
       (writeSamplesLoop outpath promptId used_seed (base_count + 1) k).1,
     (writeSamplesLoop outpath promptId used_seed (base_count + 1) k).2)

/-! ## GenerationAttemptLoop

The per-request `while imagesCreated < opt.n_iter` loop.  The external
sampler/decoder/safety-checker pipeline is modelled by the oracle
`reject : ℕ → Bool` giving the safety verdict of the i-th sampling attempt of
the request, and the process RNG by `seedAt : ℕ → ℤ` giving the seed
`seed_all` establishes for the i-th attempt.  The loop is embedded with a
fuel parameter so that it is structurally recursive; one unit of fuel is one
iteration of the `while` loop, so completion under a given fuel is exactly
termination within that many iterations. -/

/-- `maxNotSafeForWorkTries = 10` in `main`. -/
def maxNotSafeForWorkTries : ℕ := 10

/-- One observable event of the retry loop: a sampling attempt (with the seed
`seed_all` installed for it and the safety verdict), or giving up on an image
slot after the retry budget is exhausted (`"Failed to create image ..."`). -/
inductive GenEvent where
  | attempt (seedUsed : ℤ) (accepted : Bool)
  | giveUp
  deriving DecidableEq, Repr

/-- Prepend an event to a loop result. -/
def consEvent (e : GenEvent) (r : List GenEvent × ℕ) : List GenEvent × ℕ :=
  (e :: r.1, r.2)

/-- Mirrors the per-attempt test `promptSeed is None or len(promptSeed) == 0`
deciding between `seed_all()` and `seed_all(int(promptSeed))`. -/
def promptSeedIsRandom (promptSeed : Option String) : Bool :=
  promptSeed.isNone || (promptSeed.getD "").length == 0

/-- The seed `seed_all` installs for the `a`-th attempt of a request:
a fresh draw `draw a` in random mode, else `int(promptSeed)` (which succeeds
in every use below; `pyInt` is `some` there). -/
def attemptSeedVal (promptSeed : Option String) (draw : ℕ → ℤ) (a : ℕ) : ℤ :=
  if promptSeedIsRandom promptSeed then draw a
  else (pyInt (promptSeed.getD "")).getD 0

/-- The retry loop.  State: `fuel, imagesCreated, loopIteration, a` where `a`
counts sampling attempts (indexing the oracles).  Each iteration:
if `loopIteration > maxNotSafeForWorkTries` the slot is given up and
`imagesCreated` is incremented anyway; otherwise an attempt is made — on a
safety rejection `loopIteration` increments and the loop continues, on
acceptance the images are written and `imagesCreated` increments.  Returns
the event trace and the final `imagesCreated`. -/
def genLoop (n_iter : ℕ) (reject : ℕ → Bool) (seedAt : ℕ → ℤ) :
    ℕ → ℕ → ℕ → ℕ → List GenEvent × ℕ
  | 0, imagesCreated, _, _ => ([], imagesCreated)
  | fuel + 1, imagesCreated, loopIteration, a =>
    if imagesCreated < n_iter then
      if loopIteration > maxNotSafeForWorkTries then
        consEvent .giveUp (genLoop n_iter reject seedAt fuel (imagesCreated + 1) loopIteration a)
      else if reject a then
        consEvent (.attempt (seedAt a) false)
          (genLoop n_iter reject seedAt fuel imagesCreated (loopIteration + 1) (a + 1))
      else
        consEvent (.attempt (seedAt a) true)
          (genLoop n_iter reject seedAt fuel (imagesCreated + 1) loopIteration (a + 1))
    else ([], imagesCreated)

/-- Is the event a sampling attempt? -/
def isAttempt : GenEvent → Bool
  | .attempt _ _ => true
  | .giveUp => false

/-- Is the event an accepted attempt (a real image batch produced)? -/
def isAccepted : GenEvent → Bool
  | .attempt _ true => true
  | _ => false

/-- Does the event finish an image slot (an accepted attempt or a give-up)? -/
def slotEnds : GenEvent → Bool
  | .attempt _ true => true
  | .giveUp => true
  | _ => false

/-- Number of sampling attempts in a trace. -/
def attemptCount (tr : List GenEvent) : ℕ := tr.countP isAttempt

/-- Number of skipped image slots in a trace. -/
def giveUpCount (tr : List GenEvent) : ℕ :=
  tr.countP fun e => match e with | .giveUp => true | _ => false

/-- Number of accepted attempts (real images produced) in a trace. -/
def acceptedCount (tr : List GenEvent) : ℕ := tr.countP isAccepted

/-- The seeds of the sampling attempts of a trace, in order. -/
def attemptSeeds (tr : List GenEvent) : List ℤ :=
  tr.filterMap fun e => match e with | .attempt s _ => some s | .giveUp => none

/-- Prepend an event to the first slot of a slot list (opening one if none
exists yet). -/
def slotCons (e : GenEvent) : List (List GenEvent) → List (List GenEvent)
  | [] => [[e]]
  | s :: ss => (e :: s) :: ss

/-- Split a trace into the per-image-slot segments: each slot ends with its
accepted attempt or its give-up event (a trailing incomplete segment, which
does not occur with sufficient fuel, forms a final slot). -/
def slotSplit : List GenEvent → List (List GenEvent)
  | [] => []
  | e :: tr =>
    if slotEnds e then [e] :: slotSplit tr
    else slotCons e (slotSplit tr)

example : (genLoop 2 (fun _ => true) (fun _ => 0) 20 0 0 0).1 =
    List.replicate 11 (.attempt 0 false) ++ [.giveUp, .giveUp] := by decide

example : (genLoop 2 (fun _ => true) (fun _ => 0) 20 0 0 0).2 = 2 := by decide

example : zeroPad 5 7 = "00007" := by decide
example : imageFilePath "out" "001" "42" 7 = "out/001_42_00007.png" := by decide

example : pyInt "42" = some 42 := by decide
example : pyInt "7.5" = none := by decide
example : pyInt " -3 " = some (-3) := by decide
example : pyInt "1_0" = some 10 := by decide
example : pyInt "_1" = none := by decide

example : chunk 3 ["l0", "l1", "l2", "l3", "l4"] =
    [["l0", "l1", "l2"], ["l3", "l4"]] := by decide

/-! ## Helper lemmas -/

@[simp] theorem consEvent_fst (e : GenEvent) (r : List GenEvent × ℕ) :
    (consEvent e r).1 = e :: r.1 := rfl

@[simp] theorem consEvent_snd (e : GenEvent) (r : List GenEvent × ℕ) :
    (consEvent e r).2 = r.2 := rfl

@[simp] theorem attemptSeeds_nil : attemptSeeds [] = [] := rfl

@[simp] theorem attemptSeeds_attempt (s : ℤ) (b : Bool) (tr : List GenEvent) :
    attemptSeeds (.attempt s b :: tr) = s :: attemptSeeds tr := rfl

@[simp] theorem attemptSeeds_giveUp (tr : List GenEvent) :
    attemptSeeds (.giveUp :: tr) = attemptSeeds tr := rfl

/-- Completion of the retry loop: with fuel at least the loop measure, the
loop drives `imagesCreated` all the way to `n_iter` (so it terminates, and
exhausting the retry budget still advances the produced-count), and the
number of loop iterations (= trace length) is bounded. -/
theorem genLoop_complete (n_iter : ℕ) (reject : ℕ → Bool) (seedAt : ℕ → ℤ) :
    ∀ fuel ic li a, ic ≤ n_iter →
      (n_iter - ic) + (maxNotSafeForWorkTries + 2 - li) ≤ fuel →
      (genLoop n_iter reject seedAt fuel ic li a).2 = n_iter ∧
      (genLoop n_iter reject seedAt fuel ic li a).1.length ≤
        (n_iter - ic) + (maxNotSafeForWorkTries + 1 - li) := by
  intro fuel
  induction fuel with
  | zero =>
    intro ic li a hic hm
    have hics : ic = n_iter := by omega
    simp [genLoop, hics]
  | succ fuel ih =>
    intro ic li a hic hm
    by_cases h1 : ic < n_iter
    · by_cases h2 : li > maxNotSafeForWorkTries
      · have h := ih (ic + 1) li a (by omega) (by omega)
        rw [genLoop, if_pos h1, if_pos h2]
        rw [consEvent_fst, consEvent_snd, List.length_cons]
        exact ⟨h.1, by omega⟩
      · by_cases h3 : reject a = true
        · have h := ih ic (li + 1) (a + 1) (by omega) (by omega)
          rw [genLoop, if_pos h1, if_neg h2, if_pos h3]
          rw [consEvent_fst, consEvent_snd, List.length_cons]
          exact ⟨h.1, by omega⟩
        · have h := ih (ic + 1) li (a + 1) (by omega) (by omega)
          rw [genLoop, if_pos h1, if_neg h2, if_neg h3]
          rw [consEvent_fst, consEvent_snd, List.length_cons]
          exact ⟨h.1, by omega⟩
    · have hics : ic = n_iter := by omega
      rw [genLoop, if_neg h1]
      simp [hics]

/-- Every image slot of a loop trace contains at most
`maxNotSafeForWorkTries + 1 - loopIteration` sampling attempts (the retry
counter is never reset, so later slots only ever see fewer attempts). -/
theorem genLoop_slots (n_iter : ℕ) (reject : ℕ → Bool) (seedAt : ℕ → ℤ) :
    ∀ fuel ic li a, ∀ s ∈ slotSplit (genLoop n_iter reject seedAt fuel ic li a).1,
      attemptCount s ≤ maxNotSafeForWorkTries + 1 - li := by
  intro fuel
  induction fuel with
  | zero => intro ic li a s hs; simp [genLoop, slotSplit] at hs
  | succ fuel ih =>
    intro ic li a s hs
    by_cases h1 : ic < n_iter
    · by_cases h2 : li > maxNotSafeForWorkTries
      · rw [genLoop, if_pos h1, if_pos h2, consEvent_fst, slotSplit,
          if_pos (show slotEnds .giveUp = true from rfl)] at hs
        rcases List.mem_cons.mp hs with rfl | hmem
        · simp [attemptCount, isAttempt]
        · exact ih _ _ _ _ hmem
      · by_cases h3 : reject a = true
        · rw [genLoop, if_pos h1, if_neg h2, if_pos h3, consEvent_fst, slotSplit,
            if_neg (show ¬slotEnds (.attempt (seedAt a) false) = true by simp [slotEnds])] at hs
          rcases hrest : slotSplit
              (genLoop n_iter reject seedAt fuel ic (li + 1) (a + 1)).1 with _ | ⟨s0, ss⟩
          · rw [hrest, slotCons] at hs
            rcases List.mem_singleton.mp hs with rfl
            simp [attemptCount, List.countP_cons, isAttempt]
            omega
          · rw [hrest, slotCons] at hs
            rcases List.mem_cons.mp hs with rfl | hmem
            · have hmem0 : s0 ∈ slotSplit
                  (genLoop n_iter reject seedAt fuel ic (li + 1) (a + 1)).1 := by
                rw [hrest]; exact List.mem_cons_self _ _
              have h0 := ih ic (li + 1) (a + 1) s0 hmem0
              simp [attemptCount, List.countP_cons, isAttempt] at h0 ⊢
              omega
            · have hmem0 : s ∈ slotSplit
                  (genLoop n_iter reject seedAt fuel ic (li + 1) (a + 1)).1 := by
                rw [hrest]; exact List.mem_cons_of_mem _ hmem
              have h0 := ih ic (li + 1) (a + 1) s hmem0
              omega
        · rw [genLoop, if_pos h1, if_neg h2, if_neg h3, consEvent_fst, slotSplit,
            if_pos (show slotEnds (.attempt (seedAt a) true) = true from rfl)] at hs
          rcases List.mem_cons.mp hs with rfl | hmem
          · simp [attemptCount, List.countP_cons, isAttempt]
            omega
          · exact ih _ _ _ _ hmem
    · rw [genLoop, if_neg h1] at hs
      simp [slotSplit] at hs

/-- If the per-attempt seeding function is constant (the fixed-seed case),
every sampling attempt in the trace is seeded with that constant. -/
theorem genLoop_seed_mem (n_iter : ℕ) (reject : ℕ → Bool) (seedAt : ℕ → ℤ) (v : ℤ)
    (hs : ∀ i, seedAt i = v) :
    ∀ fuel ic li a, ∀ x ∈ attemptSeeds (genLoop n_iter reject seedAt fuel ic li a).1, x = v := by
  intro fuel
  induction fuel with
  | zero => intro ic li a x hx; simp [genLoop] at hx
  | succ fuel ih =>
    intro ic li a x hx
    by_cases h1 : ic < n_iter
    · by_cases h2 : li > maxNotSafeForWorkTries
      · rw [genLoop, if_pos h1, if_pos h2, consEvent_fst, attemptSeeds_giveUp] at hx
        exact ih _ _ _ _ hx
      · by_cases h3 : reject a = true
        · rw [genLoop, if_pos h1, if_neg h2, if_pos h3, consEvent_fst,
            attemptSeeds_attempt] at hx
          rcases List.mem_cons.mp hx with rfl | hx
          · exact hs a
          · exact ih _ _ _ _ hx
        · rw [genLoop, if_pos h1, if_neg h2, if_neg h3, consEvent_fst,
            attemptSeeds_attempt] at hx
          rcases List.mem_cons.mp hx with rfl | hx
          · exact hs a
          · exact ih _ _ _ _ hx
    · rw [genLoop, if_neg h1] at hx
      simp at hx

/-- Characterization of the chunk-then-take-first processing of the prompt
file: the `i`-th processed line is the input line at index `i * b`. -/
theorem chunkAux_headD_get (b : ℕ) (hb : 0 < b) :
    ∀ fuel (l : List String), l.length < fuel → ∀ i,
      ((chunkAux b fuel l).map (fun prompts => prompts.headD "")).get? i = l.get? (i * b) := by
  intro fuel
  induction fuel with
  | zero => intro l hl; omega
  | succ fuel ih =>
    intro l hl i
    match l with
    | [] => simp [chunkAux]
    | x :: l' =>
      obtain ⟨b', rfl⟩ : ∃ b', b = b' + 1 := ⟨b - 1, by omega⟩
      rw [chunkAux]
      simp only [if_neg (Nat.succ_ne_zero b'), List.map_cons]
      match i with
      | 0 => simp [List.take_succ_cons]
      | i + 1 =>
        rw [List.get?_cons_succ]
        rw [List.drop_succ_cons]
        have hlen : (l'.drop b').length < fuel := by
          simp only [List.length_drop]
          simp only [List.length_cons] at hl
          omega
        rw [ih (l'.drop b') hlen i]
        rw [List.get?_drop]
        rw [show (i + 1) * (b' + 1) = (b' + i * (b' + 1)) + 1 from by ring,
          List.get?_cons_succ]

/-- Unrolling of the per-batch sample-save loop: the files are written at
consecutive counters `base_count, base_count + 1, …` and the counter ends at
`base_count + k`. -/
theorem writeSamplesLoop_eq (outpath promptId used_seed : String) :
    ∀ k base_count, writeSamplesLoop outpath promptId used_seed base_count k =
      ((List.range k).map fun j => imageFilePath outpath promptId used_seed (base_count + j),
        base_count + k) := by
  intro k
  induction k with
  | zero => intro b; simp [writeSamplesLoop]
  | succ k ih =>
    intro b
    rw [writeSamplesLoop, ih (b + 1), List.range_succ_eq_map, List.map_cons, List.map_map]
    simp only [Prod.mk.injEq, List.cons.injEq]
    refine ⟨⟨by rw [Nat.add_zero], List.map_congr_left fun j _ => ?_⟩, by omega⟩
    simp only [Function.comp_apply]
    congr 1
    omega

/-- A line that is not skipped and splits into exactly 5 fields is parsed by
the 5-field branch. -/
theorem parseDirectiveLine_eq_parseFields (opt : RunConfig) (line f0 f1 f2 f3 f4 : String)
    (hskip : isSkippedLine line = false)
    (hsplit : pySplit line "######" = [f0, f1, f2, f3, f4]) :
    parseDirectiveLine opt line = parseFields opt f0 f1 f2 f3 f4 := by
  simp [parseDirectiveLine, hskip, hsplit, List.getD]

/-- A non-empty scale field that `int(...)` cannot parse raises. -/
theorem parseFields_scale_error (opt : RunConfig) (f0 f1 f2 f3 f4 : String)
    (h2 : f2.length ≠ 0) (hbad : pyInt f2 = none) :
    parseFields opt f0 f1 f2 f3 f4 = .valueError f2 := by
  have hb : (f2.length == 0) = false := by simpa using h2
  simp [parseFields, pyIsNone, hb, hbad]

/-- When the scale field is empty or parseable, a non-empty steps field that
`int(...)` cannot parse raises. -/
theorem parseFields_steps_error (opt : RunConfig) (f0 f1 f2 f3 f4 : String)
    (hscaleok : f2.length = 0 ∨ (pyInt f2).isSome)
    (h3 : f3.length ≠ 0) (hbad : pyInt f3 = none) :
    parseFields opt f0 f1 f2 f3 f4 = .valueError f3 := by
  have hb3 : (f3.length == 0) = false := by simpa using h3
  cases hb2 : (f2.length == 0) with
  | true => simp [parseFields, pyIsNone, hb2, hb3, hbad]
  | false =>
    rcases hscaleok with hempty | hsome
    · simp [hempty] at hb2
    · obtain ⟨n, hn⟩ := Option.isSome_iff_exists.mp hsome
      simp [parseFields, pyIsNone, hb2, hb3, hn, hbad]

/-! ## Claims -/

/-- Claim C5: for every generation request, the retry loop performs at most
`retry_bound + 1` attempts per requested image (the bound is the constant
`maxNotSafeForWorkTries = 10`), and when the bound is exhausted the give-up
branch still advances the produced-count, so with fuel
`n_iter + retry_bound + 2` — a bounded number of `while`-loop iterations —
the loop always completes with produced-count exactly `n_iter`, whatever the
safety oracle answers; moreover the total number of loop iterations is at
most `n_iter + retry_bound + 1`. -/
theorem c5_retry_bound (n_iter fuel : ℕ) (reject : ℕ → Bool) (seedAt : ℕ → ℤ)
    (hfuel : n_iter + (maxNotSafeForWorkTries + 2) ≤ fuel) :
    (genLoop n_iter reject seedAt fuel 0 0 0).2 = n_iter ∧
    (genLoop n_iter reject seedAt fuel 0 0 0).1.length ≤
      n_iter + (maxNotSafeForWorkTries + 1) ∧
    ∀ s ∈ slotSplit (genLoop n_iter reject seedAt fuel 0 0 0).1,
      attemptCount s ≤ maxNotSafeForWorkTries + 1 := by
  have h := genLoop_complete n_iter reject seedAt fuel 0 0 0 (Nat.zero_le _)
    (by simpa using hfuel)
  refine ⟨h.1, by simpa using h.2, fun s hs => ?_⟩
  have := genLoop_slots n_iter reject seedAt fuel 0 0 0 s hs
  simpa using this

/-- Witness for C5 at a concrete input: `n_iter = 2`, first attempt rejected,
then accepted; the loop completes with produced-count 2 and the first slot
holds at most 11 attempts. -/
theorem c5_retry_bound_witness :
    2 + (maxNotSafeForWorkTries + 2) ≤ 20 ∧
    (genLoop 2 (fun a => a == 0) (fun _ => 7) 20 0 0 0).2 = 2 ∧
    attemptCount ((slotSplit (genLoop 2 (fun a => a == 0) (fun _ => 7) 20 0 0 0).1).headD [])
      ≤ maxNotSafeForWorkTries + 1 :=
  ⟨by decide, (c5_retry_bound 2 20 (fun a => a == 0) (fun _ => 7) (by decide)).1,
    (c5_retry_bound 2 20 (fun a => a == 0) (fun _ => 7) (by decide)).2.2 _ (by decide)⟩

/-- Claim C6: reading prompts from a file with batch size `b` chunks the
lines into consecutive groups of `b` and parses/generates from only the first
line of each chunk (`promptLine = prompts[0]`): the `i`-th processed line is
the input line at index `i * b`, so the remaining `b - 1` lines of every
chunk are silently discarded. -/
theorem c6_only_first_of_chunk (b : ℕ) (hb : 0 < b) (lines : List String) (i : ℕ) :
    (batchPromptLines b lines).get? i = lines.get? (i * b) := by
  unfold batchPromptLines chunk
  exact chunkAux_headD_get b hb (lines.length + 1) lines (Nat.lt_succ_self _) i

/-- Witness for C6 at a concrete input: with batch size 3, the second
processed prompt line is input line 3 (lines 1, 2, 4, 5 are discarded). -/
theorem c6_only_first_of_chunk_witness :
    0 < 3 ∧ (batchPromptLines 3 ["l0", "l1", "l2", "l3", "l4", "l5", "l6"]).get? 1 = some "l3" :=
  ⟨by decide,
    (c6_only_first_of_chunk 3 (by decide) ["l0", "l1", "l2", "l3", "l4", "l5", "l6"] 1).trans
      (by decide)⟩

/-- Claim C7: parsing the directive `001######42############20######a red fox`
under a RunConfig whose default scale is 7.5 yields
`{id="001", seed=42, scale=7.5, steps=20, promptText="a red fox"}`: the empty
scale field resolves to the default while the non-empty steps field `20` is
parsed independently (the seed field is carried as the string `"42"`, which
`int(...)` converts to 42 at seeding time). -/
theorem c7_directive_scenario (opt : RunConfig) (hscale : opt.scale = 15 / 2) :
    parseDirectiveLine opt "001######42############20######a red fox" =
      .request ⟨"001", some "42", 15 / 2, 20, "a red fox"⟩ ∧
    pyInt "42" = some 42 := by
  refine ⟨?_, by decide⟩
  rw [← hscale]
  rfl

/-- Witness for C7 at the default RunConfig. -/
theorem c7_directive_scenario_witness :
    parseDirectiveLine {} "001######42############20######a red fox" =
      .request ⟨"001", some "42", 15 / 2, 20, "a red fox"⟩ ∧
    pyInt "42" = some 42 :=
  c7_directive_scenario {} rfl

/-- Claim C8: every non-empty, non-comment line with fewer than 5
`######`-separated fields is treated as raw prompt text: the whole line
becomes the prompt, the id is the placeholder `"000"`, the seed is unset
(random), and scale/steps take the RunConfig defaults. -/
theorem c8_raw_text_fallback (opt : RunConfig) (line : String)
    (hskip : isSkippedLine line = false)
    (hfields : (pySplit line "######").length < 5) :
    parseDirectiveLine opt line =
      .request ⟨"000", none, opt.scale, opt.ddim_steps, line⟩ := by
  simp only [parseDirectiveLine, hskip, Bool.false_eq_true, if_false, if_pos hfields]

/-- Witness for C8 at the scenario input: `a blue heron` with CLI defaults
scale 7.5, steps 50. -/
theorem c8_raw_text_fallback_witness :
    parseDirectiveLine {} "a blue heron" =
      .request ⟨"000", none, 15 / 2, 50, "a blue heron"⟩ :=
  c8_raw_text_fallback {} "a blue heron" (by decide) (by decide)

/-- Claim C9: `seed_all` with an unset seed draws one value with
`random.randint(min_seed_value, max_seed_value)` where the bounds are exactly
the full inclusive unsigned 32-bit range `[0, 2^32 - 1]`, and that single
value seeds every random source (`seed_everything`, `random.seed`,
`PYTHONHASHSEED`, `np.random.seed`, `torch.manual_seed`,
`torch.cuda.manual_seed`); with a given seed, that exact value seeds all of
them. -/
theorem c9_seed_all_sources (randint : ℕ → ℕ → ℕ) (v : ℕ) :
    min_seed_value = 0 ∧ max_seed_value = 2 ^ 32 - 1 ∧
    seed_all randint none =
      { plGlobalSeed := some (randint min_seed_value max_seed_value),
        pythonRandomSeed := some (randint min_seed_value max_seed_value),
        pythonHashSeed := some (randint min_seed_value max_seed_value),
        numpyRandomSeed := some (randint min_seed_value max_seed_value),
        torchManualSeed := some (randint min_seed_value max_seed_value),
        torchCudaSeed := some (randint min_seed_value max_seed_value),
        cudnnDeterministic := true, cudnnBenchmark := false } ∧
    seed_all randint (some v) =
      { plGlobalSeed := some v, pythonRandomSeed := some v, pythonHashSeed := some v,
        numpyRandomSeed := some v, torchManualSeed := some v, torchCudaSeed := some v,
        cudnnDeterministic := true, cudnnBenchmark := false } :=
  ⟨rfl, rfl, rfl, rfl⟩

/-- Claim C10: the CLI dispatch treats `--seed 0` exactly like the random
sentinel `-1` (both run `seed_everything()` with no argument, i.e. a random
seed), so an explicitly requested seed of 0 is never honored as a fixed seed;
any other value is passed through. -/
theorem c10_zero_seed_is_random :
    resolveCliSeed 0 = none ∧ resolveCliSeed (-1) = none ∧
    resolveCliSeed 0 = resolveCliSeed (-1) ∧ resolveCliSeed 42 = some 42 := by
  refine ⟨?_, ?_, ?_, ?_⟩ <;> simp [resolveCliSeed]

/-- Claim C1 counterexample: for the fixed-seed directive seed field `"42"`
(first attempt rejected by the safety filter, second accepted), the retry
re-seeds with the identical seed 42, not a fresh random one — the trace is
`[attempt 42 rejected, attempt 42 accepted]`, so a rejected sample IS
re-attempted with the identical seed, contradicting the claim. -/
theorem c1_counterexample :
    (genLoop 1 (fun a => a == 0) (attemptSeedVal (some "42") (fun n => (n : ℤ))) 20 0 0 0).1 =
      [.attempt 42 false, .attempt 42 true] := by decide

/-- Claim C1 (amended): when the directive specifies a fixed seed
(`promptSeed` neither `None` nor empty, parseable by `int(...)`), the
per-attempt seeding test re-runs `seed_all(int(promptSeed))` on every
iteration, so every attempt — including each retry after a safety
rejection — is seeded with the same fixed seed; only seedless requests draw
fresh random seeds. -/
theorem c1_amended_fixed_seed_reused (promptSeed : Option String) (draw : ℕ → ℤ) (v : ℤ)
    (reject : ℕ → Bool) (n_iter fuel ic li a : ℕ)
    (hfixed : promptSeedIsRandom promptSeed = false)
    (hv : pyInt (promptSeed.getD "") = some v) :
    attemptSeeds (genLoop n_iter reject (attemptSeedVal promptSeed draw) fuel ic li a).1 =
      List.replicate
        (attemptSeeds
          (genLoop n_iter reject (attemptSeedVal promptSeed draw) fuel ic li a).1).length
        v := by
  rw [List.eq_replicate_length]
  intro x hx
  exact genLoop_seed_mem n_iter reject _ v
    (fun i => by simp [attemptSeedVal, hfixed, hv]) fuel ic li a x hx

/-- Witness for the amended C1: with seed field `"42"` and every attempt
rejected, all 11 attempt seeds equal 42. -/
theorem c1_amended_fixed_seed_reused_witness :
    attemptSeeds
        (genLoop 2 (fun _ => true) (attemptSeedVal (some "42") (fun n => (n : ℤ))) 20 0 0 0).1 =
      List.replicate
        (attemptSeeds
          (genLoop 2 (fun _ => true)
            (attemptSeedVal (some "42") (fun n => (n : ℤ))) 20 0 0 0).1).length
        42 :=
  c1_amended_fixed_seed_reused (some "42") (fun n => (n : ℤ)) 42 (fun _ => true) 2 20 0 0 0
    (by decide) (by decide)

/-- Claim C2 counterexample: the per-image save joins `outpath`, not
`sample_path`, so the file for id `001`, seed `42`, counter 0 is written at
`out/001_42_00000.png` — not at `out/samples/001_42_00000.png` as the claim
states. -/
theorem c2_counterexample :
    imageFilePath "out" "001" "42" 0 = "out/001_42_00000.png" ∧
    imageFilePath "out" "001" "42" 0 ≠ sample_path "out" ++ "/" ++ "001_42_00000.png" := by
  constructor
  · decide
  · decide

/-- Claim C2 (amended): every accepted per-image file is written at
`<outdir>/<id>_<seed>_<counter:05>.png` — directly in `outdir`, not in the
`samples` subdirectory — where the counter is initialized to the number of
files present in `<outdir>/samples` at startup and increments with each file
written (successive files use the strictly increasing counters
`base, base+1, …`, and the counter ends at `base + k`, so later batches
continue strictly higher); files already present directly in `<outdir>` at
startup can however be overwritten, since the counter scans a different
directory than the one written to. -/
theorem c2_amended_save_paths (outpath promptId used_seed : String)
    (samplesDirListing : List String) (k : ℕ) :
    writeSamplesLoop outpath promptId used_seed (initialBaseCount samplesDirListing) k =
      ((List.range k).map fun j =>
          imageFilePath outpath promptId used_seed (samplesDirListing.length + j),
        samplesDirListing.length + k) :=
  writeSamplesLoop_eq outpath promptId used_seed k (initialBaseCount samplesDirListing)

/-- Claim C3 counterexample: a 5-field directive whose non-empty scale field
`x` is not parseable does not fall back to the default scale — it raises the
uncaught `ValueError` of `int("x")`, aborting the batch run. -/
theorem c3_counterexample :
    parseDirectiveLine {} "001######42######x######20######a red fox" = .valueError "x" ∧
    parseDirectiveLine {} "001######42######x######20######a red fox" ≠
      .request ⟨"001", some "42", 15 / 2, 20, "a red fox"⟩ := by
  constructor
  · rfl
  · decide

/-- Claim C3 (amended): only EMPTY scale/steps fields fall back to the
RunConfig defaults; a non-empty scale or steps field that `int(...)` cannot
parse raises an uncaught `ValueError` that aborts the whole batch run (the
parser has no recovery for it). -/
theorem c3_amended_unparseable_aborts (opt : RunConfig) (line f0 f1 f2 f3 f4 : String)
    (hskip : isSkippedLine line = false)
    (hsplit : pySplit line "######" = [f0, f1, f2, f3, f4]) :
    (f2.length ≠ 0 → pyInt f2 = none → parseDirectiveLine opt line = .valueError f2) ∧
    ((f2.length = 0 ∨ (pyInt f2).isSome) → f3.length ≠ 0 → pyInt f3 = none →
      parseDirectiveLine opt line = .valueError f3) := by
  rw [parseDirectiveLine_eq_parseFields opt line f0 f1 f2 f3 f4 hskip hsplit]
  exact ⟨fun h2 hbad => parseFields_scale_error opt f0 f1 f2 f3 f4 h2 hbad,
    fun hok h3 hbad => parseFields_steps_error opt f0 f1 f2 f3 f4 hok h3 hbad⟩

/-- Witness for the amended C3 at a concrete input: the unparseable scale
field `x` aborts with a `ValueError` naming `x`. -/
theorem c3_amended_unparseable_aborts_witness :
    parseDirectiveLine {} "001######42######x######20######a red fox" = .valueError "x" :=
  (c3_amended_unparseable_aborts {} "001######42######x######20######a red fox"
      "001" "42" "x" "20" "a red fox" (by decide) (by decide)).1 (by decide) (by decide)

/-- Claim C4 counterexample: with `n_iter = 2` and every sampling attempt
rejected, after the 11 consecutive rejected tries the produced-count does
reach 2, but NOT as "one real image plus one skipped slot": zero real images
are produced and BOTH slots are skipped (the retry counter is shared across
slots and never reset). -/
theorem c4_counterexample :
    (genLoop 2 (fun _ => true) (fun _ => 0) 20 0 0 0).2 = 2 ∧
    acceptedCount (genLoop 2 (fun _ => true) (fun _ => 0) 20 0 0 0).1 = 0 ∧
    giveUpCount (genLoop 2 (fun _ => true) (fun _ => 0) 20 0 0 0).1 = 2 := by
  refine ⟨by decide, by decide, by decide⟩

/-- Claim C4 (amended): with `iterations-per-prompt = 2` and every attempt
rejected by the safety filter, exactly 11 consecutive tries are made (all for
the first slot), then BOTH image slots are skipped with logged failures: the
produced-count still reaches 2, made up of zero real images plus two skipped
slots. -/
theorem c4_amended_both_slots_skipped :
    (genLoop 2 (fun _ => true) (fun _ => 0) 20 0 0 0).1 =
      List.replicate 11 (.attempt 0 false) ++ [.giveUp, .giveUp] ∧
    attemptCount (genLoop 2 (fun _ => true) (fun _ => 0) 20 0 0 0).1 = 11 ∧
    (genLoop 2 (fun _ => true) (fun _ => 0) 20 0 0 0).2 = 2 := by
  refine ⟨by decide, by decide, by decide⟩

end StableTxt2Img
